import Mathlib

/-!
Verification of the Skygear IoT device SDK (SkygearIO/iot-SDK-JS).

The repository has two revisions of one module:
* `src/lib/index.js` — the current revision (prefixed pubsub channel,
  registration order save → role-grant lambda → whoami, trailing status
  report inside `initDevice`, falsy-action guard in the pubsub handler);
* `src/unnamed/part_000` — an earlier revision (unprefixed channel,
  role-grant lambda before the device-record save, no whoami, no trailing
  status report, no falsy-action guard).

Both are embedded below.  Backend interactions (record save, lambda call,
whoami, pubsub subscription) are recorded as a trace of operations; the
backend itself is an explicit environment deciding which calls reject.
SHA-256 (Node's `crypto.createHash('sha256')`, an external collaborator) is
implemented concretely over `Nat` with explicit reduction mod 2^32.
-/

set_option maxRecDepth 20000

/-! ## SHA-256 over Nat (32-bit words via explicit mod 2^32) -/

/-- Truncate to a 32-bit word. -/
def w32 (n : Nat) : Nat := n % 4294967296

/-- 32-bit right rotation. -/
def rotr32 (k n : Nat) : Nat := w32 ((n >>> k) ||| (n <<< (32 - k)))

def bigSigma0 (x : Nat) : Nat := (rotr32 2 x) ^^^ (rotr32 13 x) ^^^ (rotr32 22 x)

def bigSigma1 (x : Nat) : Nat := (rotr32 6 x) ^^^ (rotr32 11 x) ^^^ (rotr32 25 x)

def smallSigma0 (x : Nat) : Nat := (rotr32 7 x) ^^^ (rotr32 18 x) ^^^ (x >>> 3)

def smallSigma1 (x : Nat) : Nat := (rotr32 17 x) ^^^ (rotr32 19 x) ^^^ (x >>> 10)

/-- SHA-256 choice function; the 32-bit complement is `x ^^^ 0xffffffff`. -/
def chFn (x y z : Nat) : Nat := (x &&& y) ^^^ ((x ^^^ 4294967295) &&& z)

def majFn (x y z : Nat) : Nat := (x &&& y) ^^^ (x &&& z) ^^^ (y &&& z)

/-- The 64 SHA-256 round constants. -/
def K256 : List Nat :=
  [1116352408, 1899447441, 3049323471, 3921009573, 961987163, 1508970993,
   2453635748, 2870763221, 3624381080, 310598401, 607225278, 1426881987,
   1925078388, 2162078206, 2614888103, 3248222580, 3835390401, 4022224774,
   264347078, 604807628, 770255983, 1249150122, 1555081692, 1996064986,
   2554220882, 2821834349, 2952996808, 3210313671, 3336571891, 3584528711,
   113926993, 338241895, 666307205, 773529912, 1294757372, 1396182291,
   1695183700, 1986661051, 2177026350, 2456956037, 2730485921, 2820302411,
   3259730800, 3345764771, 3516065817, 3600352804, 4094571909, 275423344,
   430227734, 506948616, 659060556, 883997877, 958139571, 1322822218,
   1537002063, 1747873779, 1955562222, 2024104815, 2227730452, 2361852424,
   2428436474, 2756734187, 3204031479, 3329325298]

/-- The SHA-256 initial hash state. -/
def H0256 : List Nat :=
  [1779033703, 3144134277, 1013904242, 2773480762, 1359893119, 2600822924,
   528734635, 1541459225]

/-- Extend a 16-word block by the given number of schedule words. -/
def extendW (w : List Nat) : Nat → List Nat
  | 0 => w
  | k + 1 =>
    let n := w.length
    extendW (w ++ [w32 (smallSigma1 (w.getD (n - 2) 0) + w.getD (n - 7) 0 +
      smallSigma0 (w.getD (n - 15) 0) + w.getD (n - 16) 0)]) k

/-- One SHA-256 compression round on the eight-word working state. -/
def sha256Round (st : List Nat) (kt wt : Nat) : List Nat :=
  match st with
  | [a, b, c, d, e, f, g, h] =>
    let t1 := w32 (h + bigSigma1 e + chFn e f g + kt + wt)
    let t2 := w32 (bigSigma0 a + majFn a b c)
    [w32 (t1 + t2), a, b, c, w32 (d + t1), e, f, g]
  | st => st

/-- Compress one 16-word block into the hash state. -/
def compressBlock (H : List Nat) (block : List Nat) : List Nat :=
  let w := extendW block 48
  let st := (List.range 64).foldl (fun st t => sha256Round st (K256.getD t 0) (w.getD t 0)) H
  List.zipWith (fun x y => w32 (x + y)) H st

/-- Fold the compression over consecutive 16-word blocks (fuel-driven so the
kernel can evaluate it; the fuel is an upper bound on the block count). -/
def sha256Go : Nat → List Nat → List Nat → List Nat
  | 0, H, _ => H
  | _, H, [] => H
  | fuel + 1, H, ws => sha256Go fuel (compressBlock H (List.take 16 ws)) (List.drop 16 ws)

def sha256Blocks (H : List Nat) (ws : List Nat) : List Nat := sha256Go ws.length H ws

/-- UTF-8 encoding of one character, as byte values. -/
def utf8Bytes (c : Char) : List Nat :=
  let n := c.toNat
  if n < 128 then [n]
  else if n < 2048 then [192 + n / 64, 128 + n % 64]
  else if n < 65536 then [224 + n / 4096, 128 + (n / 64) % 64, 128 + n % 64]
  else [240 + n / 262144, 128 + (n / 4096) % 64, 128 + (n / 64) % 64, 128 + n % 64]

/-- UTF-8 bytes of a string (Node hashes the secret as UTF-8). -/
def strBytes (s : String) : List Nat := s.data.flatMap utf8Bytes

/-- Big-endian 64-bit encoding, as 8 byte values. -/
def be64 (n : Nat) : List Nat := (List.range 8).map (fun i => (n >>> (8 * (7 - i))) % 256)

/-- SHA-256 padding: `0x80`, zeros to 56 mod 64, then the 64-bit bit length. -/
def padMessage (bytes : List Nat) : List Nat :=
  let L := bytes.length
  let zeros := (120 - (L + 1) % 64) % 64
  bytes ++ [128] ++ List.replicate zeros 0 ++ be64 (8 * L)

/-- Group bytes into big-endian 32-bit words. -/
def bytesToWords : List Nat → List Nat
  | b0 :: b1 :: b2 :: b3 :: rest => (((b0 * 256 + b1) * 256 + b2) * 256 + b3) :: bytesToWords rest
  | _ => []

/-- Lowercase hex digit. -/
def hexDigit (n : Nat) : Char := if n < 10 then Char.ofNat (48 + n) else Char.ofNat (87 + n)

/-- A 32-bit word as 8 lowercase hex characters. -/
def wordToHex (n : Nat) : String :=
  String.mk ((List.range 8).map (fun i => hexDigit ((n >>> (4 * (7 - i))) % 16)))

/-- `hex(SHA-256(s))`: the lowercase hex digest of the UTF-8 bytes of `s`,
exactly what `crypto.createHash('sha256').update(s).digest('hex')` yields. -/
def sha256hex (s : String) : String :=
  String.join ((sha256Blocks H0256 (bytesToWords (padMessage (strBytes s)))).map wordToHex)

/-! ## Pubsub channel derivation, per revision -/

/-- Channel derived by `src/lib/index.js`: ``iot-${deviceHash.digest('hex')}``. -/
def pubsubChannelV1 (deviceSecret : String) : String := "iot-" ++ sha256hex deviceSecret

/-- Channel derived by `src/unnamed/part_000`: `deviceHash.digest('hex')`, no prefix. -/
def pubsubChannelV0 (deviceSecret : String) : String := sha256hex deviceSecret

/-! ## Data model -/

/-- The backend's authenticated user: `skygear.currentUser`, with its id and
the roles `hasRole` queries. -/
structure User where
  id : String
  roles : List String
  deriving DecidableEq, Repr

/-- The caller-supplied platform descriptor.  The action mapping's handlers are
opaque callables; the model keeps the set of command names that own a handler
(`platform.action.hasOwnProperty`), and an invocation is recorded by name. -/
structure Platform where
  deviceSecret : String
  appVersion : String
  actionKeys : List String
  deriving DecidableEq, Repr

/-- JSON-ish field values appearing in records and lambda payloads. -/
inductive JValue where
  | null
  | str (s : String)
  | boolean (b : Bool)
  | ref (recordType : String) (recordId : String)
  deriving DecidableEq, Repr

/-- One entry of a `skygear.ACL`: a role name and a permission level. -/
structure ACLEntry where
  role : String
  level : String
  deriving DecidableEq, Repr

abbrev ACL := List ACLEntry

/-- A `skygear.Record`: collection name, record id, fields, and the access
policy attached by `setAccess`/`setACL` (none until one is attached). -/
structure Record where
  recordType : String
  recordId : String
  fields : List (String × JValue)
  access : Option ACL
  deriving DecidableEq, Repr

/-- `record.setAccess(acl)` / `record.setACL(acl)`: replaces the policy. -/
def Record.setAccess (r : Record) (acl : ACL) : Record := { r with access := some acl }

/-- Argument of a lambda (remote-procedure) call. -/
inductive LambdaArg where
  | arr (xs : List JValue)
  | obj (fields : List (String × JValue))
  | str (s : String)
  deriving DecidableEq, Repr

/-- One backend operation, as recorded in a trace in call order. -/
inductive BackendOp where
  | save (records : List Record)
  | lambda (name : String) (arg : LambdaArg)
  | whoami
  | subscribe (channel : String)
  deriving DecidableEq, Repr

/-- The backend environment: for each awaited call, whether it resolves or
rejects (rejections carry an opaque reason string). -/
structure Backend where
  saveRes : List Record → Except String Unit
  lambdaRes : String → LambdaArg → Except String Unit
  whoamiRes : Except String Unit

/-- Errors `initDevice` can reject with: the synchronous login-required throw,
or a propagated backend rejection. -/
inductive IotError where
  | authenticationRequired (msg : String)
  | backend (e : String)
  deriving DecidableEq, Repr

/-- In-memory session of the current revision (`this._device` in
`src/lib/index.js`): id, platform, pubsubChannel. -/
structure DeviceSession where
  id : Option String
  platform : Option Platform
  pubsubChannel : Option String
  deriving DecidableEq, Repr

/-- The constructor's session: every field null. -/
def initialSession : DeviceSession := ⟨none, none, none⟩

/-- Result of a run of `initDevice`: the trace of backend operations performed,
the session state afterwards, and resolution or rejection. -/
structure InitOutcome where
  trace : List BackendOp
  device : DeviceSession
  result : Except IotError Unit
  deriving Repr

/-! ## Constants of `src/lib/index.js` -/

/-- Modelled from the spec: the SDK version string read from build metadata
(`package.json` is not under `src/`); no claim depends on its value. -/
def sdkVersion : String := "0.0.0"

/-- Message of the synchronous throw in `src/lib/index.js` (source typo kept). -/
def authErrMsgV1 : String := "[Skygear IoT] ERROR: login required before callng initialize"

/-- `deviceRecordACL` of `src/lib/index.js` lines 80-83. -/
def deviceRecordACL : ACL := [⟨"iot-device", "write"⟩, ⟨"iot-manager", "write"⟩]

/-- `deviceLoginRecordACL` of `src/lib/index.js` lines 84-87. -/
def deviceLoginRecordACL : ACL := [⟨"iot-device", "write"⟩, ⟨"iot-manager", "read"⟩]

/-- The registration device record of `src/lib/index.js` lines 99-106:
`iot_device` with namespaced `_id`, the secret, `active: true`, and
`deviceRecordACL` attached. -/
def regDeviceRecord (deviceID deviceSecret : String) : Record :=
  Record.setAccess
    { recordType := "iot_device", recordId := "iot_device/" ++ deviceID,
      fields := [("secret", JValue.str deviceSecret), ("active", JValue.boolean true)],
      access := none }
    deviceRecordACL

/-- The login record of `src/lib/index.js` lines 114-128: `setAccess` is called
twice, first with `deviceLoginRecordACL`, then with `deviceRecordACL`; the
second call replaces the first. -/
def loginRecordV1 (genLoginId deviceID appVersion : String) : Record :=
  Record.setAccess
    (Record.setAccess
      { recordType := "iot_device_login", recordId := genLoginId,
        fields := [("deviceID", JValue.str deviceID), ("sdkVersion", JValue.str sdkVersion),
                   ("appVersion", JValue.str appVersion)],
        access := none }
      deviceLoginRecordACL)
    deviceRecordACL

/-- The second record of the batch save, `src/lib/index.js` lines 121-126: an
`iot_device` record holding a reference to the login record; no ACL attached. -/
def loginRefDeviceRecord (genLoginId deviceID : String) : Record :=
  { recordType := "iot_device", recordId := "iot_device/" ++ deviceID,
    fields := [("login", JValue.ref "iot_device_login" genLoginId)], access := none }

/-- The session after the contiguous batch of assignments at
`src/lib/index.js` lines 148-150. -/
def fullSessionV1 (deviceID : String) (platform : Platform) : DeviceSession :=
  { id := some deviceID, platform := some platform,
    pubsubChannel := some (pubsubChannelV1 platform.deviceSecret) }

/-- A JS value that is a string, or `null` when the source is still null. -/
def jvalOfId : Option String → JValue
  | none => JValue.null
  | some s => JValue.str s

/-- Payload of `reportStatus` in `src/lib/index.js` lines 166-170. -/
def reportStatusArg (dev : DeviceSession) (metadata : JValue) : LambdaArg :=
  LambdaArg.obj [("deviceID", jvalOfId dev.id), ("status", JValue.str "online"),
                 ("metadata", metadata)]

/-- `reportStatus(metadata = null)` of `src/lib/index.js`: one lambda call,
whose promise is returned as-is. -/
def reportStatus (bk : Backend) (dev : DeviceSession) (metadata : JValue := JValue.null) :
    BackendOp × Except String Unit :=
  (BackendOp.lambda "iot:report-status" (reportStatusArg dev metadata),
   bk.lambdaRes "iot:report-status" (reportStatusArg dev metadata))

/-! ## `initDevice` of `src/lib/index.js` -/

/-- The tail of `initDevice` shared by both branches of the role check:
batch-save the login records, register the two subscriptions, set the session
fields in one contiguous batch, then await the trailing status report. -/
def initFinishV1 (bk : Backend) (genLoginId : String) (platform : Platform) (dev : DeviceSession)
    (deviceID : String) (pre : List BackendOp) : InitOutcome :=
  let loginRecord := loginRecordV1 genLoginId deviceID platform.appVersion
  let refRecord := loginRefDeviceRecord genLoginId deviceID
  match bk.saveRes [loginRecord, refRecord] with
  | Except.error e =>
    ⟨pre ++ [BackendOp.save [loginRecord, refRecord]], dev, Except.error (IotError.backend e)⟩
  | Except.ok _ =>
    let dev1 := fullSessionV1 deviceID platform
    let trace1 := pre ++ [BackendOp.save [loginRecord, refRecord],
      BackendOp.subscribe "iot-request-status",
      BackendOp.subscribe (pubsubChannelV1 platform.deviceSecret)]
    match bk.lambdaRes "iot:report-status" (reportStatusArg dev1 JValue.null) with
    | Except.error e =>
      ⟨trace1 ++ [BackendOp.lambda "iot:report-status" (reportStatusArg dev1 JValue.null)],
        dev1, Except.error (IotError.backend e)⟩
    | Except.ok _ =>
      ⟨trace1 ++ [BackendOp.lambda "iot:report-status" (reportStatusArg dev1 JValue.null)],
        dev1, Except.ok ()⟩

/-- `initDevice(platform)` of `src/lib/index.js` lines 76-156.  `genLoginId` is
the id the SDK generates for the login record (it is created without `_id`). -/
def initDevice (bk : Backend) (currentUser : Option User) (genLoginId : String)
    (platform : Platform) (dev : DeviceSession) : InitOutcome :=
  match currentUser with
  | none => ⟨[], dev, Except.error (IotError.authenticationRequired authErrMsgV1)⟩
  | some user =>
    if user.roles.contains "iot-device" then
      initFinishV1 bk genLoginId platform dev user.id []
    else
      let deviceRecord := regDeviceRecord user.id platform.deviceSecret
      match bk.saveRes [deviceRecord] with
      | Except.error e =>
        ⟨[BackendOp.save [deviceRecord]], dev, Except.error (IotError.backend e)⟩
      | Except.ok _ =>
        match bk.lambdaRes "iot:add-device-role" (LambdaArg.arr []) with
        | Except.error e =>
          ⟨[BackendOp.save [deviceRecord], BackendOp.lambda "iot:add-device-role" (LambdaArg.arr [])],
            dev, Except.error (IotError.backend e)⟩
        | Except.ok _ =>
          match bk.whoamiRes with
          | Except.error e =>
            ⟨[BackendOp.save [deviceRecord],
              BackendOp.lambda "iot:add-device-role" (LambdaArg.arr []), BackendOp.whoami],
              dev, Except.error (IotError.backend e)⟩
          | Except.ok _ =>
            initFinishV1 bk genLoginId platform dev user.id
              [BackendOp.save [deviceRecord],
               BackendOp.lambda "iot:add-device-role" (LambdaArg.arr []), BackendOp.whoami]

/-! ## `src/unnamed/part_000` (earlier revision) -/

/-- Message of the synchronous throw in `src/unnamed/part_000` (typo kept). -/
def authErrMsgV0 : String := "[SkygearIoT] login required before callng initialize"

/-- In-memory session of the earlier revision: it additionally tracks the
login record id. -/
structure DeviceSessionV0 where
  id : Option String
  platform : Option Platform
  loginID : Option String
  pubsubChannel : Option String
  deriving DecidableEq, Repr

/-- The earlier revision's constructor session: every field null. -/
def initialSessionV0 : DeviceSessionV0 := ⟨none, none, none, none⟩

/-- Result of a run of the earlier revision's `initDevice`. -/
structure InitOutcomeV0 where
  trace : List BackendOp
  device : DeviceSessionV0
  result : Except IotError Unit
  deriving Repr

/-- The ACL used for both records in `src/unnamed/part_000`. -/
def managerWriteACL : ACL := [⟨"iot-manager", "write"⟩]

/-- Registration device record of `src/unnamed/part_000` lines 79-86: raw
`_id`, the secret, `active: true`, manager-write ACL. -/
def regDeviceRecordV0 (deviceID deviceSecret : String) : Record :=
  Record.setAccess
    { recordType := "iot_device", recordId := deviceID,
      fields := [("secret", JValue.str deviceSecret), ("active", JValue.boolean true)],
      access := none }
    managerWriteACL

/-- Login record of `src/unnamed/part_000` lines 91-98. -/
def loginRecordV0 (genLoginId deviceID appVersion : String) : Record :=
  Record.setAccess
    { recordType := "iot_device_login", recordId := genLoginId,
      fields := [("deviceID", JValue.str deviceID), ("sdkVersion", JValue.str sdkVersion),
                 ("appVersion", JValue.str appVersion)],
      access := none }
    managerWriteACL

/-- The earlier revision's session after its batch of assignments
(lines 113-116); it has no trailing status report. -/
def fullSessionV0 (deviceID genLoginId : String) (platform : Platform) : DeviceSessionV0 :=
  { id := some deviceID, platform := some platform, loginID := some genLoginId,
    pubsubChannel := some (pubsubChannelV0 platform.deviceSecret) }

/-- Tail of the earlier revision's `initDevice`: save the login record,
register the two subscriptions, set the session fields. -/
def initFinishV0 (bk : Backend) (genLoginId : String) (platform : Platform) (dev : DeviceSessionV0)
    (deviceID : String) (pre : List BackendOp) : InitOutcomeV0 :=
  let loginRecord := loginRecordV0 genLoginId deviceID platform.appVersion
  match bk.saveRes [loginRecord] with
  | Except.error e =>
    ⟨pre ++ [BackendOp.save [loginRecord]], dev, Except.error (IotError.backend e)⟩
  | Except.ok _ =>
    ⟨pre ++ [BackendOp.save [loginRecord],
      BackendOp.subscribe "iot-request-status",
      BackendOp.subscribe (pubsubChannelV0 platform.deviceSecret)],
      fullSessionV0 deviceID genLoginId platform, Except.ok ()⟩

/-- `initDevice(platform)` of `src/unnamed/part_000` lines 67-118.  Note the
registration order there: the role-grant lambda runs before the device-record
save, and there is no `whoami`. -/
def initDeviceV0 (bk : Backend) (currentUser : Option User) (genLoginId : String)
    (platform : Platform) (dev : DeviceSessionV0) : InitOutcomeV0 :=
  match currentUser with
  | none => ⟨[], dev, Except.error (IotError.authenticationRequired authErrMsgV0)⟩
  | some user =>
    if user.roles.contains "iot-device" then
      initFinishV0 bk genLoginId platform dev user.id []
    else
      match bk.lambdaRes "iot:add-device-role" (LambdaArg.arr []) with
      | Except.error e =>
        ⟨[BackendOp.lambda "iot:add-device-role" (LambdaArg.arr [])],
          dev, Except.error (IotError.backend e)⟩
      | Except.ok _ =>
        let deviceRecord := regDeviceRecordV0 user.id platform.deviceSecret
        match bk.saveRes [deviceRecord] with
        | Except.error e =>
          ⟨[BackendOp.lambda "iot:add-device-role" (LambdaArg.arr []),
            BackendOp.save [deviceRecord]], dev, Except.error (IotError.backend e)⟩
        | Except.ok _ =>
          initFinishV0 bk genLoginId platform dev user.id
            [BackendOp.lambda "iot:add-device-role" (LambdaArg.arr []),
             BackendOp.save [deviceRecord]]

/-- Payload of `reportStatus` in `src/unnamed/part_000` lines 127-132; it also
carries the tracked login record id. -/
def reportStatusArgV0 (dev : DeviceSessionV0) (metadata : JValue) : LambdaArg :=
  LambdaArg.obj [("deviceID", jvalOfId dev.id), ("loginID", jvalOfId dev.loginID),
                 ("status", JValue.str "online"), ("metadata", metadata)]

/-- `reportStatus(metadata = null)` of `src/unnamed/part_000`. -/
def reportStatusV0 (bk : Backend) (dev : DeviceSessionV0) (metadata : JValue := JValue.null) :
    BackendOp × Except String Unit :=
  (BackendOp.lambda "iot:report-status" (reportStatusArgV0 dev metadata),
   bk.lambdaRes "iot:report-status" (reportStatusArgV0 dev metadata))

/-! ## The device-channel pubsub handler of `src/lib/index.js` lines 135-145 -/

/-- A console log emitted by the handler. -/
inductive LogEntry where
  | error (msg : String)
  | warn (msg : String)
  deriving DecidableEq, Repr

/-- What one handler run did: which platform actions it invoked (by command
name, in order) and what it logged. -/
structure HandlerEffect where
  invoked : List String
  logs : List LogEntry
  deriving DecidableEq, Repr

/-- A handler run either returns normally or throws back into the pubsub
transport. -/
inductive HandlerOutcome where
  | normal (eff : HandlerEffect)
  | thrown (e : String)
  deriving DecidableEq, Repr

/-- The `console.error` text for a message without an `action` key. -/
def missingActionMsg : String := "[Skygear IoT] ERROR: missing key \"action\" in pubsub message"

/-- The `console.warn` text for an unmapped command (source typo kept). -/
def unsupportedActionMsg (cmd : String) : String :=
  "[Skygear IoT] WARNING: Sever requested unsupported action: " ++ cmd

/-- JS line terminators, which `.` in the regex `/^iot-(.+)$/` does not match. -/
def isJsLineTerminator (c : Char) : Bool :=
  c.toNat = 10 || c.toNat = 13 || c.toNat = 8232 || c.toNat = 8233

/-- `action.match(/^iot-(.+)$/)`: the capture group when the whole string is
`iot-` followed by at least one non-line-terminator character. -/
def iotMatch (a : String) : Option String :=
  match a.data with
  | 'i' :: 'o' :: 't' :: '-' :: rest =>
    if rest.isEmpty then none
    else if rest.all (fun c => !(isJsLineTerminator c)) then some (String.mk rest)
    else none
  | _ => none

/-- The device-channel subscription handler.  The message's `action` key is
`none` when absent, null or undefined; the guard `if(!action)` also fires on
the empty string.  Platform actions are async callables, so invoking one
cannot throw synchronously; the `thrown` outcome is never produced. -/
def handleDeviceMessage (platform : Platform) (action : Option String) : HandlerOutcome :=
  match action with
  | none => HandlerOutcome.normal ⟨[], [LogEntry.error missingActionMsg]⟩
  | some a =>
    if a = "" then HandlerOutcome.normal ⟨[], [LogEntry.error missingActionMsg]⟩
    else
      match iotMatch a with
      | some cmd =>
        if platform.actionKeys.contains cmd then HandlerOutcome.normal ⟨[cmd], []⟩
        else HandlerOutcome.normal ⟨[], [LogEntry.warn (unsupportedActionMsg cmd)]⟩
      | none => HandlerOutcome.normal ⟨[], []⟩

/-! ## Concrete sample environments used by witnesses and counterexamples -/

/-- A backend on which every awaited call resolves. -/
def bkOk : Backend :=
  ⟨fun _ => Except.ok (), fun _ _ => Except.ok (), Except.ok ()⟩

/-- A backend that rejects exactly the `iot:report-status` lambda. -/
def bkReportFail : Backend :=
  ⟨fun _ => Except.ok (),
   fun n _ => if n = "iot:report-status" then Except.error "report-status rejected" else Except.ok (),
   Except.ok ()⟩

/-- A sample platform descriptor with `shutdown` and `restart` handlers. -/
def pSample : Platform := ⟨"sec", "1.0", ["shutdown", "restart"]⟩

/-- A sample authenticated user already holding the `iot-device` role. -/
def uWithRole : User := ⟨"user-1", ["iot-device"]⟩

/-- A sample authenticated user without the `iot-device` role. -/
def uNoRole : User := ⟨"user-1", []⟩

/-! ## Structural lemmas about `initDevice` -/

/-- A successful tail leaves the session fully set. -/
theorem initFinishV1_ok_device (bk : Backend) (gid : String) (p : Platform) (dev : DeviceSession)
    (deviceID : String) (pre : List BackendOp)
    (h : (initFinishV1 bk gid p dev deviceID pre).result = Except.ok ()) :
    (initFinishV1 bk gid p dev deviceID pre).device = fullSessionV1 deviceID p := by
  unfold initFinishV1 at h ⊢
  cases hs : bk.saveRes [loginRecordV1 gid deviceID p.appVersion, loginRefDeviceRecord gid deviceID] with
  | error e => simp [hs] at h
  | ok _ =>
    cases hr : bk.lambdaRes "iot:report-status" (reportStatusArg (fullSessionV1 deviceID p) JValue.null) with
    | error e => simp [hs, hr] at h
    | ok _ => simp [hs, hr]

/-- The tail either leaves the session untouched or fully set. -/
theorem initFinishV1_device_cases (bk : Backend) (gid : String) (p : Platform) (dev : DeviceSession)
    (deviceID : String) (pre : List BackendOp) :
    (initFinishV1 bk gid p dev deviceID pre).device = dev ∨
    (initFinishV1 bk gid p dev deviceID pre).device = fullSessionV1 deviceID p := by
  unfold initFinishV1
  cases hs : bk.saveRes [loginRecordV1 gid deviceID p.appVersion, loginRefDeviceRecord gid deviceID] with
  | error e => simp [hs]
  | ok _ =>
    cases hr : bk.lambdaRes "iot:report-status" (reportStatusArg (fullSessionV1 deviceID p) JValue.null) with
    | error e => simp [hs, hr]
    | ok _ => simp [hs, hr]

/-- If the tail rejects, either the session is untouched (the batch save
rejected) or it is fully set and the rejection came from the trailing
`iot:report-status` lambda. -/
theorem initFinishV1_error_cases (bk : Backend) (gid : String) (p : Platform) (dev : DeviceSession)
    (deviceID : String) (pre : List BackendOp) (ie : IotError)
    (h : (initFinishV1 bk gid p dev deviceID pre).result = Except.error ie) :
    (initFinishV1 bk gid p dev deviceID pre).device = dev ∨
    ((initFinishV1 bk gid p dev deviceID pre).device = fullSessionV1 deviceID p ∧
      ∃ e, ie = IotError.backend e ∧
        bk.lambdaRes "iot:report-status" (reportStatusArg (fullSessionV1 deviceID p) JValue.null) =
          Except.error e) := by
  unfold initFinishV1 at h ⊢
  cases hs : bk.saveRes [loginRecordV1 gid deviceID p.appVersion, loginRefDeviceRecord gid deviceID] with
  | error e => simp [hs]
  | ok _ =>
    cases hr : bk.lambdaRes "iot:report-status" (reportStatusArg (fullSessionV1 deviceID p) JValue.null) with
    | error e =>
      simp [hs, hr] at h
      simp [hs, hr, h]
    | ok _ => simp [hs, hr] at h

/-- A successful `initDevice` run leaves the session fully set. -/
theorem initDevice_ok_device (bk : Backend) (u : User) (gid : String) (p : Platform)
    (d : DeviceSession)
    (h : (initDevice bk (some u) gid p d).result = Except.ok ()) :
    (initDevice bk (some u) gid p d).device = fullSessionV1 u.id p := by
  unfold initDevice at h ⊢
  cases hrole : u.roles.contains "iot-device" with
  | true =>
    simp only [hrole, if_true] at h ⊢
    exact initFinishV1_ok_device bk gid p d u.id [] h
  | false =>
    simp only [hrole, Bool.false_eq_true, if_false] at h ⊢
    cases hs : bk.saveRes [regDeviceRecord u.id p.deviceSecret] with
    | error e => simp [hs] at h
    | ok _ =>
      cases hl : bk.lambdaRes "iot:add-device-role" (LambdaArg.arr []) with
      | error e => simp [hs, hl] at h
      | ok _ =>
        cases hw : bk.whoamiRes with
        | error e => simp [hs, hl, hw] at h
        | ok _ =>
          simp only [hs, hl, hw] at h ⊢
          exact initFinishV1_ok_device bk gid p d u.id _ h

/-- Any `initDevice` run leaves the session either untouched or fully set. -/
theorem initDevice_device_cases (bk : Backend) (u : User) (gid : String) (p : Platform)
    (d : DeviceSession) :
    (initDevice bk (some u) gid p d).device = d ∨
    (initDevice bk (some u) gid p d).device = fullSessionV1 u.id p := by
  unfold initDevice
  cases hrole : u.roles.contains "iot-device" with
  | true =>
    simp only [hrole, if_true]
    exact initFinishV1_device_cases bk gid p d u.id []
  | false =>
    simp only [hrole, Bool.false_eq_true, if_false]
    cases hs : bk.saveRes [regDeviceRecord u.id p.deviceSecret] with
    | error e => simp [hs]
    | ok _ =>
      cases hl : bk.lambdaRes "iot:add-device-role" (LambdaArg.arr []) with
      | error e => simp [hs, hl]
      | ok _ =>
        cases hw : bk.whoamiRes with
        | error e => simp [hs, hl, hw]
        | ok _ =>
          simp only [hs, hl, hw]
          exact initFinishV1_device_cases bk gid p d u.id _

/-- If `initDevice` rejects, either the session is untouched, or it is fully
set and the rejection is a backend rejection of the trailing status report. -/
theorem initDevice_error_cases (bk : Backend) (u : User) (gid : String) (p : Platform)
    (d : DeviceSession) (ie : IotError)
    (h : (initDevice bk (some u) gid p d).result = Except.error ie) :
    (initDevice bk (some u) gid p d).device = d ∨
    ((initDevice bk (some u) gid p d).device = fullSessionV1 u.id p ∧
      ∃ e, ie = IotError.backend e ∧
        bk.lambdaRes "iot:report-status" (reportStatusArg (fullSessionV1 u.id p) JValue.null) =
          Except.error e) := by
  unfold initDevice at h ⊢
  cases hrole : u.roles.contains "iot-device" with
  | true =>
    simp only [hrole, if_true] at h ⊢
    exact initFinishV1_error_cases bk gid p d u.id [] ie h
  | false =>
    simp only [hrole, Bool.false_eq_true, if_false] at h ⊢
    cases hs : bk.saveRes [regDeviceRecord u.id p.deviceSecret] with
    | error e => simp [hs]
    | ok _ =>
      cases hl : bk.lambdaRes "iot:add-device-role" (LambdaArg.arr []) with
      | error e => simp [hs, hl]
      | ok _ =>
        cases hw : bk.whoamiRes with
        | error e => simp [hs, hl, hw]
        | ok _ =>
          simp only [hs, hl, hw] at h ⊢
          exact initFinishV1_error_cases bk gid p d u.id _ ie h

/-! ## Claim theorems -/

/-- Claim C1: in both revisions, calling `initDevice` while no authenticated
user is present (`skygear.currentUser` is null) rejects with the
login-required error before performing any backend operation: the trace is
empty, so no record save, no lambda call, no whoami, and no subscription
registration occurred, and the session is untouched. -/
theorem initDevice_requires_auth_first (bk bk0 : Backend) (gid gid0 : String) (p p0 : Platform)
    (dev : DeviceSession) (dev0 : DeviceSessionV0) :
    initDevice bk none gid p dev =
      ⟨[], dev, Except.error (IotError.authenticationRequired authErrMsgV1)⟩ ∧
    initDeviceV0 bk0 none gid0 p0 dev0 =
      ⟨[], dev0, Except.error (IotError.authenticationRequired authErrMsgV0)⟩ :=
  ⟨rfl, rfl⟩

/-- Claim C2: the pubsub channel of any successful `initDevice` run of the
current revision is exactly the constant literal `"iot-"` followed by the hex
SHA-256 digest of the device secret, and two successful runs from the same
secret (any users, backends, generated ids) derive the identical channel. -/
theorem initDevice_channel_sha256 (S : String) (bk1 bk2 : Backend) (u1 u2 : User)
    (g1 g2 : String) (p1 p2 : Platform) (d1 d2 : DeviceSession)
    (h1 : p1.deviceSecret = S) (h2 : p2.deviceSecret = S)
    (r1 : (initDevice bk1 (some u1) g1 p1 d1).result = Except.ok ())
    (r2 : (initDevice bk2 (some u2) g2 p2 d2).result = Except.ok ()) :
    (initDevice bk1 (some u1) g1 p1 d1).device.pubsubChannel = some ("iot-" ++ sha256hex S) ∧
    (initDevice bk1 (some u1) g1 p1 d1).device.pubsubChannel =
      (initDevice bk2 (some u2) g2 p2 d2).device.pubsubChannel := by
  have e1 := initDevice_ok_device bk1 u1 g1 p1 d1 r1
  have e2 := initDevice_ok_device bk2 u2 g2 p2 d2 r2
  rw [e1, e2]
  constructor
  · simp [fullSessionV1, pubsubChannelV1, h1]
  · simp [fullSessionV1, pubsubChannelV1, h1, h2]

/-- Witness for C2: two concrete successful runs (one user with the role, one
without) of secret `"sec"` both derive `iot-` + SHA-256("sec"). -/
theorem initDevice_channel_sha256_witness :
    (initDevice bkOk (some uWithRole) "login-1" pSample initialSession).result = Except.ok () ∧
    (initDevice bkOk (some uNoRole) "login-2" pSample initialSession).result = Except.ok () ∧
    (initDevice bkOk (some uWithRole) "login-1" pSample initialSession).device.pubsubChannel =
      some ("iot-" ++ sha256hex "sec") ∧
    (initDevice bkOk (some uWithRole) "login-1" pSample initialSession).device.pubsubChannel =
      (initDevice bkOk (some uNoRole) "login-2" pSample initialSession).device.pubsubChannel := by
  have h := initDevice_channel_sha256 "sec" bkOk bkOk uWithRole uNoRole "login-1" "login-2"
    pSample pSample initialSession initialSession rfl rfl rfl rfl
  exact ⟨rfl, rfl, h.1, h.2⟩

/-- Claim C10: for every secret, the channel the current revision derives is
the literal `"iot-"` prepended to the channel the earlier revision derives,
so the two revisions never derive the same channel name from one secret. -/
theorem channel_v1_refines_v0 (S : String) :
    pubsubChannelV1 S = "iot-" ++ pubsubChannelV0 S ∧ pubsubChannelV1 S ≠ pubsubChannelV0 S := by
  refine ⟨rfl, fun h => ?_⟩
  have hl := congrArg String.length h
  rw [pubsubChannelV1, pubsubChannelV0, String.length_append] at hl
  have h4 : ("iot-" : String).length = 4 := rfl
  rw [h4] at hl
  omega

/-- Claim C3: for an authenticated user without the `iot-device` role, on a
backend where every call resolves, `initDevice` performs exactly this
sequence: one save of the single registration device record (carrying the
secret and `active: true`), then the role-grant lambda exactly once, then the
current-user refresh (`whoami`) — all three before the login-record save —
followed by the subscriptions and the trailing status report. -/
theorem initDevice_registration_order (bk : Backend) (u : User) (gid : String) (p : Platform)
    (d : DeviceSession)
    (hrole : u.roles.contains "iot-device" = false)
    (hsave : ∀ rs, bk.saveRes rs = Except.ok ())
    (hlam : ∀ n a, bk.lambdaRes n a = Except.ok ())
    (hwho : bk.whoamiRes = Except.ok ()) :
    initDevice bk (some u) gid p d =
      ⟨[BackendOp.save [regDeviceRecord u.id p.deviceSecret],
        BackendOp.lambda "iot:add-device-role" (LambdaArg.arr []),
        BackendOp.whoami,
        BackendOp.save [loginRecordV1 gid u.id p.appVersion, loginRefDeviceRecord gid u.id],
        BackendOp.subscribe "iot-request-status",
        BackendOp.subscribe (pubsubChannelV1 p.deviceSecret),
        BackendOp.lambda "iot:report-status" (reportStatusArg (fullSessionV1 u.id p) JValue.null)],
       fullSessionV1 u.id p, Except.ok ()⟩ := by
  have hmem : "iot-device" ∉ u.roles := by simpa using hrole
  simp [initDevice, initFinishV1, hmem, hsave, hlam, hwho]

/-- Witness for C3: the concrete role-less user on the all-resolving backend
runs the full registration sequence in order. -/
theorem initDevice_registration_order_witness :
    initDevice bkOk (some uNoRole) "login-2" pSample initialSession =
      ⟨[BackendOp.save [regDeviceRecord "user-1" "sec"],
        BackendOp.lambda "iot:add-device-role" (LambdaArg.arr []),
        BackendOp.whoami,
        BackendOp.save [loginRecordV1 "login-2" "user-1" "1.0", loginRefDeviceRecord "login-2" "user-1"],
        BackendOp.subscribe "iot-request-status",
        BackendOp.subscribe (pubsubChannelV1 "sec"),
        BackendOp.lambda "iot:report-status" (reportStatusArg (fullSessionV1 "user-1" pSample) JValue.null)],
       fullSessionV1 "user-1" pSample, Except.ok ()⟩ :=
  initDevice_registration_order bkOk uNoRole "login-2" pSample initialSession rfl
    (fun _ => rfl) (fun _ _ => rfl) rfl

/-- Claim C4: for an authenticated user already holding the `iot-device` role,
on a backend where every call resolves, `initDevice` skips the registration
sub-sequence — no registration-record save, no role-grant lambda, no
`whoami` — while still saving the login record batch and registering both
subscription handlers. -/
theorem initDevice_skips_registration (bk : Backend) (u : User) (gid : String) (p : Platform)
    (d : DeviceSession)
    (hrole : u.roles.contains "iot-device" = true)
    (hsave : ∀ rs, bk.saveRes rs = Except.ok ())
    (hlam : ∀ n a, bk.lambdaRes n a = Except.ok ()) :
    initDevice bk (some u) gid p d =
      ⟨[BackendOp.save [loginRecordV1 gid u.id p.appVersion, loginRefDeviceRecord gid u.id],
        BackendOp.subscribe "iot-request-status",
        BackendOp.subscribe (pubsubChannelV1 p.deviceSecret),
        BackendOp.lambda "iot:report-status" (reportStatusArg (fullSessionV1 u.id p) JValue.null)],
       fullSessionV1 u.id p, Except.ok ()⟩ ∧
    BackendOp.whoami ∉ (initDevice bk (some u) gid p d).trace ∧
    (∀ arg, BackendOp.lambda "iot:add-device-role" arg ∉ (initDevice bk (some u) gid p d).trace) ∧
    (∀ rs, BackendOp.save rs ∈ (initDevice bk (some u) gid p d).trace →
      regDeviceRecord u.id p.deviceSecret ∉ rs) := by
  have heq : initDevice bk (some u) gid p d =
      ⟨[BackendOp.save [loginRecordV1 gid u.id p.appVersion, loginRefDeviceRecord gid u.id],
        BackendOp.subscribe "iot-request-status",
        BackendOp.subscribe (pubsubChannelV1 p.deviceSecret),
        BackendOp.lambda "iot:report-status" (reportStatusArg (fullSessionV1 u.id p) JValue.null)],
       fullSessionV1 u.id p, Except.ok ()⟩ := by
    have hmem : "iot-device" ∈ u.roles := by simpa using hrole
    simp [initDevice, initFinishV1, hmem, hsave, hlam]
  refine ⟨heq, ?_, ?_, ?_⟩
  · rw [heq]; simp
  · intro arg; rw [heq]; simp
  · intro rs hrs; rw [heq] at hrs; simp at hrs
    subst hrs
    simp [regDeviceRecord, loginRecordV1, loginRefDeviceRecord, Record.setAccess]

/-- Witness for C4: the concrete role-holding user on the all-resolving
backend skips the registration sub-sequence. -/
theorem initDevice_skips_registration_witness :
    initDevice bkOk (some uWithRole) "login-1" pSample initialSession =
      ⟨[BackendOp.save [loginRecordV1 "login-1" "user-1" "1.0", loginRefDeviceRecord "login-1" "user-1"],
        BackendOp.subscribe "iot-request-status",
        BackendOp.subscribe (pubsubChannelV1 "sec"),
        BackendOp.lambda "iot:report-status" (reportStatusArg (fullSessionV1 "user-1" pSample) JValue.null)],
       fullSessionV1 "user-1" pSample, Except.ok ()⟩ ∧
    BackendOp.whoami ∉ (initDevice bkOk (some uWithRole) "login-1" pSample initialSession).trace :=
  ⟨(initDevice_skips_registration bkOk uWithRole "login-1" pSample initialSession rfl
      (fun _ => rfl) (fun _ _ => rfl)).1,
   (initDevice_skips_registration bkOk uWithRole "login-1" pSample initialSession rfl
      (fun _ => rfl) (fun _ _ => rfl)).2.1⟩

/-- Claim C5 (code bug): the ACL in effect on the login record when it is
persisted is `deviceRecordACL` (device: write, manager: write), because the
second `setAccess` call overwrites the purpose-built `deviceLoginRecordACL`
(device: write, manager: read); the persisted policy differs from the
manager-read policy the claim (and the dead `deviceLoginRecordACL`
definition) intends. -/
theorem loginRecord_acl_overwritten :
    (loginRecordV1 "login-1" "user-1" "1.0").access = some deviceRecordACL ∧
    deviceRecordACL = [⟨"iot-device", "write"⟩, ⟨"iot-manager", "write"⟩] ∧
    deviceRecordACL ≠ deviceLoginRecordACL ∧
    (initDevice bkOk (some uWithRole) "login-1" pSample initialSession).trace =
      [BackendOp.save [loginRecordV1 "login-1" "user-1" "1.0",
        loginRefDeviceRecord "login-1" "user-1"],
       BackendOp.subscribe "iot-request-status",
       BackendOp.subscribe (pubsubChannelV1 "sec"),
       BackendOp.lambda "iot:report-status"
         (reportStatusArg (fullSessionV1 "user-1" pSample) JValue.null)] :=
  ⟨rfl, rfl, by decide, rfl⟩

/-- Claim C6: `reportStatus` makes exactly one lambda call whose payload has
`deviceID` equal to the session's id (null when uninitialized), the literal
status `"online"`, and the caller's metadata passed through unmodified
(defaulting to null when omitted); it returns the backend's result unchanged,
for every session state — no precondition check.  Both revisions are covered
(the earlier one additionally sends the tracked login record id). -/
theorem reportStatus_payload (bk : Backend) (dev : DeviceSession) (dev0 : DeviceSessionV0)
    (m : JValue) :
    reportStatus bk dev m =
      (BackendOp.lambda "iot:report-status"
        (LambdaArg.obj [("deviceID", jvalOfId dev.id), ("status", JValue.str "online"),
                        ("metadata", m)]),
       bk.lambdaRes "iot:report-status" (reportStatusArg dev m)) ∧
    reportStatus bk dev = reportStatus bk dev JValue.null ∧
    reportStatusV0 bk dev0 m =
      (BackendOp.lambda "iot:report-status"
        (LambdaArg.obj [("deviceID", jvalOfId dev0.id), ("loginID", jvalOfId dev0.loginID),
                        ("status", JValue.str "online"), ("metadata", m)]),
       bk.lambdaRes "iot:report-status" (reportStatusArgV0 dev0 m)) ∧
    reportStatusV0 bk dev0 = reportStatusV0 bk dev0 JValue.null :=
  ⟨rfl, rfl, rfl, rfl⟩

/-- Counterexample to claim C7 as stated: the empty-string action does not
match the pattern `iot-<command>`, yet it is not silently ignored — it is
falsy in JS, so the guard at `src/lib/index.js` line 136 logs the missing-key
error. -/
theorem emptyAction_not_silent :
    iotMatch "" = none ∧
    handleDeviceMessage pSample (some "") =
      HandlerOutcome.normal ⟨[], [LogEntry.error missingActionMsg]⟩ ∧
    (HandlerOutcome.normal ⟨[], [LogEntry.error missingActionMsg]⟩ : HandlerOutcome) ≠
      HandlerOutcome.normal ⟨[], []⟩ :=
  ⟨rfl, rfl, by decide⟩

/-- Claim C7 as amended: on the device channel, an action matching
`iot-<command>` invokes exactly the mapped handler once (and nothing else)
when the platform's action mapping has an entry for `<command>`; logs a
warning naming the command and invokes nothing when it has none; a non-empty
non-matching action is silently ignored; and the empty-string action —
non-matching but falsy — instead triggers the missing-action guard, logging
the missing-key error and invoking no handler. -/
theorem deviceChannel_dispatch (p : Platform) (a : String) :
    (∀ cmd, iotMatch a = some cmd → p.actionKeys.contains cmd = true →
      handleDeviceMessage p (some a) = HandlerOutcome.normal ⟨[cmd], []⟩) ∧
    (∀ cmd, iotMatch a = some cmd → p.actionKeys.contains cmd = false →
      handleDeviceMessage p (some a) =
        HandlerOutcome.normal ⟨[], [LogEntry.warn (unsupportedActionMsg cmd)]⟩) ∧
    (iotMatch a = none → a ≠ "" →
      handleDeviceMessage p (some a) = HandlerOutcome.normal ⟨[], []⟩) ∧
    (a = "" → handleDeviceMessage p (some a) =
      HandlerOutcome.normal ⟨[], [LogEntry.error missingActionMsg]⟩) := by
  refine ⟨?_, ?_, ?_, ?_⟩
  · intro cmd hm hc
    by_cases ha : a = ""
    · subst ha
      simp [iotMatch] at hm
    · have hc2 : cmd ∈ p.actionKeys := by simpa using hc
      simp [handleDeviceMessage, ha, hm, hc2]
  · intro cmd hm hc
    by_cases ha : a = ""
    · subst ha
      simp [iotMatch] at hm
    · have hc2 : cmd ∉ p.actionKeys := by simpa using hc
      simp [handleDeviceMessage, ha, hm, hc2]
  · intro hm ha
    simp [handleDeviceMessage, ha, hm]
  · intro ha
    subst ha
    rfl

/-- Witness for the amended C7: `{action: "iot-restart"}` against a platform
with `shutdown` and `restart` handlers invokes exactly `restart` once, and
`{action: ""}` logs the missing-key error and invokes nothing. -/
theorem deviceChannel_dispatch_witness :
    iotMatch "iot-restart" = some "restart" ∧
    pSample.actionKeys.contains "restart" = true ∧
    handleDeviceMessage pSample (some "iot-restart") =
      HandlerOutcome.normal ⟨["restart"], []⟩ ∧
    handleDeviceMessage pSample (some "") =
      HandlerOutcome.normal ⟨[], [LogEntry.error missingActionMsg]⟩ :=
  ⟨by decide, by decide,
   (deviceChannel_dispatch pSample "iot-restart").1 "restart" (by decide) (by decide),
   (deviceChannel_dispatch pSample "").2.2.2 rfl⟩

/-- Claim C8: a device-channel message whose `action` key is absent (or null
or undefined) makes the handler log the missing-key error and return without
invoking any platform action; and for every message the handler returns a
normal outcome — nothing is ever thrown back into the pubsub transport. -/
theorem deviceChannel_missing_action (p : Platform) (action : Option String) :
    (action = none →
      handleDeviceMessage p action =
        HandlerOutcome.normal ⟨[], [LogEntry.error missingActionMsg]⟩) ∧
    (∃ eff, handleDeviceMessage p action = HandlerOutcome.normal eff) := by
  constructor
  · intro h
    subst h
    rfl
  · cases action with
    | none => exact ⟨_, rfl⟩
    | some a =>
      by_cases ha : a = ""
      · subst ha
        exact ⟨_, rfl⟩
      · cases hm : iotMatch a with
        | none => exact ⟨⟨[], []⟩, by simp [handleDeviceMessage, ha, hm]⟩
        | some cmd =>
          by_cases hc : cmd ∈ p.actionKeys
          · exact ⟨⟨[cmd], []⟩, by simp [handleDeviceMessage, ha, hm, hc]⟩
          · exact ⟨⟨[], [LogEntry.warn (unsupportedActionMsg cmd)]⟩,
              by simp [handleDeviceMessage, ha, hm, hc]⟩

/-- Witness for C8: a message without an `action` key logs the error and
invokes no handler. -/
theorem deviceChannel_missing_action_witness :
    ((none : Option String) = none) ∧
    handleDeviceMessage pSample none =
      HandlerOutcome.normal ⟨[], [LogEntry.error missingActionMsg]⟩ :=
  ⟨rfl, (deviceChannel_missing_action pSample none).1 rfl⟩

/-- Counterexample to claim C9 as stated: in the current revision the session
fields are written before the trailing `await this.reportStatus()`, so when
that lambda rejects, `initDevice` rejects yet every session field is set —
the fields are not written only at the end of a successful run. -/
theorem deviceSession_write_on_failed_init :
    (initDevice bkReportFail (some uWithRole) "login-1" pSample initialSession).result =
      Except.error (IotError.backend "report-status rejected") ∧
    (initDevice bkReportFail (some uWithRole) "login-1" pSample initialSession).device =
      fullSessionV1 "user-1" pSample ∧
    fullSessionV1 "user-1" pSample ≠ initialSession :=
  ⟨rfl, rfl, by decide⟩

/-- Claim C9 as amended: starting from the all-null session, the session after
any `initDevice` run is either still all null or fully set (never partial); a
successful run leaves it fully set; and a rejected run leaves it all null
unless the rejection is a backend rejection of the trailing status report, in
which case the fields are already set. -/
theorem deviceSession_all_or_nothing (bk : Backend) (u : User) (gid : String) (p : Platform) :
    ((initDevice bk (some u) gid p initialSession).device = initialSession ∨
     (initDevice bk (some u) gid p initialSession).device = fullSessionV1 u.id p) ∧
    ((initDevice bk (some u) gid p initialSession).result = Except.ok () →
      (initDevice bk (some u) gid p initialSession).device = fullSessionV1 u.id p) ∧
    (∀ ie, (initDevice bk (some u) gid p initialSession).result = Except.error ie →
      (initDevice bk (some u) gid p initialSession).device = initialSession ∨
      ((initDevice bk (some u) gid p initialSession).device = fullSessionV1 u.id p ∧
        ∃ e, ie = IotError.backend e ∧
          bk.lambdaRes "iot:report-status" (reportStatusArg (fullSessionV1 u.id p) JValue.null) =
            Except.error e)) :=
  ⟨initDevice_device_cases bk u gid p initialSession,
   fun h => initDevice_ok_device bk u gid p initialSession h,
   fun ie h => initDevice_error_cases bk u gid p initialSession ie h⟩

/-- Witness for the amended C9: a concrete successful run leaves the session
fully set. -/
theorem deviceSession_all_or_nothing_witness :
    (initDevice bkOk (some uNoRole) "login-3" pSample initialSession).result = Except.ok () ∧
    (initDevice bkOk (some uNoRole) "login-3" pSample initialSession).device =
      fullSessionV1 "user-1" pSample :=
  ⟨rfl, (deviceSession_all_or_nothing bkOk uNoRole "login-3" pSample).2.1 rfl⟩
